import Mathlib

/-!
A verification development for the image-authenticity metadata checker
(`metadata_checker.py`).  The Python dictionaries, strings and numbers are
shallowly embedded: a metadata record is an association list with distinct
keys, Python numeric values are modelled as exact rationals/integers
(float rounding is outside the model), and a Python function that can
raise an exception is modelled as an `Option`-valued function where
`none` means the call raised.
-/

namespace MetadataChecker

/-- A metadata field value: a string, a number, or a list of strings
(the shapes produced by the external metadata extraction tool). -/
inductive Value where
  | str (s : String)
  | num (n : Int)
  | list (l : List String)
deriving DecidableEq, Repr

/-- Python truthiness of a value (empty string, zero and empty list are falsy). -/
def Value.truthy : Value → Bool
  | .str s => s ≠ ""
  | .num n => n ≠ 0
  | .list l => l ≠ []

/-- Whether the value is a number. -/
def Value.isNum : Value → Bool
  | .num _ => true
  | _ => false

/-- Whether the value is a list. -/
def Value.isList : Value → Bool
  | .list _ => true
  | _ => false

/-- Python `repr` of a string, as used when a list is converted with `str`
(escaping of quotes inside the string is outside the model). -/
def pyRepr (s : String) : String := "'" ++ s ++ "'"

/-- Python `str()` applied to a value. -/
def pyStr : Value → String
  | .str s => s
  | .num n => toString n
  | .list l => "[" ++ String.intercalate ", " (l.map pyRepr) ++ "]"

/-- Python `s.lower()` (ASCII case folding, matching the ASCII metadata
the checkers look at). -/
def strLower (s : String) : String := ⟨s.data.map Char.toLower⟩

/-- The characters of `hay` strictly before the first occurrence of
`sep`, or `none` when `sep` does not occur in `hay`. -/
def firstSplit (sep : List Char) : List Char → Option (List Char)
  | [] => if sep.isEmpty then some [] else none
  | c :: rest =>
    if sep.isPrefixOf (c :: rest) then some []
    else (firstSplit sep rest).map (fun pre => c :: pre)

/-- Python substring test `sub in s`. -/
def hasSub (s sub : String) : Bool := (firstSplit sub.data s.data).isSome

/-- Python `s.split(sep)[0]`: the part of `s` before the first occurrence
of `sep`, or all of `s` when `sep` does not occur. -/
def splitHead (s sep : String) : String :=
  match firstSplit sep.data s.data with
  | some pre => ⟨pre⟩
  | none => s

/-- Python `s[0:n]`. -/
def strTake (s : String) (n : Nat) : String := ⟨s.data.take n⟩

/-- Python `s.endswith(suffix)`. -/
def strEndsWith (s suffix : String) : Bool := suffix.data.isSuffixOf s.data

/-- Python `s.strip()` on the character list (ASCII whitespace). -/
def trimChars (cs : List Char) : List Char :=
  ((cs.dropWhile Char.isWhitespace).reverse.dropWhile Char.isWhitespace).reverse

/-- Digit run to a natural number. -/
def digitsVal (cs : List Char) : Nat := cs.foldl (fun a c => a * 10 + (c.toNat - 48)) 0

/-- Python `int(s)` on a string: optional surrounding whitespace, an
optional sign, then a nonempty run of decimal digits; `none` when the
call would raise `ValueError` (digit-group underscores and non-ASCII
digits are outside the model). -/
def pyInt (s : String) : Option Int :=
  let (sgn, ds) : Int × List Char :=
    match trimChars s.data with
    | '-' :: rest => (-1, rest)
    | '+' :: rest => (1, rest)
    | rest => (1, rest)
  if ds.length > 0 && ds.all Char.isDigit then
    some (sgn * (digitsVal ds : Nat))
  else none

/-- Python `float(s)` on a string, with the result as an exact rational:
optional sign, integer and/or fractional digit run, optional exponent;
`none` when the call would raise (`inf`/`nan` spellings are outside the
model). -/
def pyFloat (s : String) : Option Rat :=
  let (sgn, cs) : Rat × List Char :=
    match trimChars s.data with
    | '-' :: rest => (-1, rest)
    | '+' :: rest => (1, rest)
    | rest => (1, rest)
  let ip := cs.takeWhile Char.isDigit
  let cs₁ := cs.dropWhile Char.isDigit
  let (hadDot, fp, cs₂) : Bool × List Char × List Char :=
    match cs₁ with
    | '.' :: rest => (true, rest.takeWhile Char.isDigit, rest.dropWhile Char.isDigit)
    | _ => (false, [], cs₁)
  if ip.isEmpty && fp.isEmpty then none
  else
    let base : Rat := sgn * ((digitsVal ip : Rat) + (digitsVal fp : Rat) / (10 ^ fp.length))
    match hadDot, cs₂ with
    | _, [] => some base
    | _, e :: rest =>
      if e = 'e' || e = 'E' then
        let (esgn, eds) : Int × List Char :=
          match rest with
          | '-' :: r => (-1, r)
          | '+' :: r => (1, r)
          | r => (1, r)
        if eds.isEmpty || !eds.all Char.isDigit then none
        else some (base * (10 : Rat) ^ (esgn * (digitsVal eds : Int)))
      else none

/-- A metadata record: an insertion-ordered mapping from field names to
values, i.e. an association list with pairwise distinct keys. -/
structure Metadata where
  fields : List (String × Value)
  nodup : (fields.map Prod.fst).Nodup

/-- Python `metadata.get(k)` / `metadata[k]`. -/
def Metadata.get? (m : Metadata) (k : String) : Option Value :=
  (m.fields.find? (fun p => p.1 == k)).map (·.2)

/-- Python `k in metadata`. -/
def Metadata.hasKey (m : Metadata) (k : String) : Bool := (m.get? k).isSome

/-- Python `len(metadata)`. -/
def Metadata.size (m : Metadata) : Nat := m.fields.length

/-! ## The four checkers (`check_basic_integrity`, `check_c2pa_authenticity`,
`check_ai_indicators`, `check_tampering_indicators`).  Each returns `none`
exactly when the Python function would raise an exception. -/

/-- Result of `check_basic_integrity`. -/
structure IntegrityChecks where
  valid_file_type : Bool
  reasonable_size : Bool
  has_metadata : Bool
  consistent_dates : Bool
deriving DecidableEq, Repr

/-- Result of `check_c2pa_authenticity`. -/
structure C2paChecks where
  has_c2pa_manifest : Bool
  valid_signature : Bool
  hash_validation : Bool
  ai_disclosure : Bool
  validation_passed : Bool
deriving DecidableEq, Repr

/-- Result of `check_ai_indicators`. -/
structure AiChecks where
  explicit_ai_credit : Bool
  generative_actions : Bool
  digital_source_type : Bool
  creation_tools : Bool
deriving DecidableEq, Repr

/-- Result of `check_tampering_indicators`. -/
structure TamperingChecks where
  inconsistent_software : Bool
  multiple_editors : Bool
  metadata_stripping : Bool
  date_anomalies : Bool
deriving DecidableEq, Repr

/-- The size part of `check_basic_integrity`, evaluated on the `FileSize`
value when present.  `none` means the Python code raised: a substring
test on a number is a `TypeError`, a failed `int`/`float` conversion is a
`ValueError`, and `.split` on a list is an `AttributeError`. -/
def reasonableSize : Option Value → Option Bool
  | none => some false
  | some v =>
    match v with
    | .num _ => none
    | .str s =>
      if hasSub s "kB" then
        (pyInt (splitHead s " kB")).map (fun kb => decide (1 ≤ kb ∧ kb ≤ 50000))
      else if hasSub s "MB" then
        (pyFloat (splitHead s " MB")).map (fun mb => decide ((0.001 : Rat) ≤ mb ∧ mb ≤ 50))
      else some false
    | .list l =>
      if l.contains "kB" then none
      else if l.contains "MB" then none
      else some false

/-- The file-type part of `check_basic_integrity`:
`metadata.get("FileType") in ["PNG", "JPEG", "JPG", "TIFF"]`. -/
def validFileType (m : Metadata) : Bool :=
  match m.get? "FileType" with
  | some (.str s) => ["PNG", "JPEG", "JPG", "TIFF"].contains s
  | _ => false

/-- The date-consistency part of `check_basic_integrity`. -/
def consistentDates (m : Metadata) : Bool :=
  let existing_dates :=
    ["FileModifyDate", "FileCreateDate", "DateTimeOriginal"].filterMap m.get?
  if existing_dates.length ≥ 2 then
    existing_dates.all (fun d => hasSub (pyStr d) "202")
  else false

/-- `check_basic_integrity` from the source.  The size check is the only
part that can raise. -/
def check_basic_integrity (m : Metadata) : Option IntegrityChecks :=
  (reasonableSize (m.get? "FileSize")).map fun reasonable_size =>
    ⟨validFileType m, reasonable_size, decide (m.size > 5), consistentDates m⟩

/-- The manifest-presence part of `check_c2pa_authenticity`: a
case-insensitive substring match of any indicator against any key or any
value. -/
def hasC2paManifest (m : Metadata) : Bool :=
  ["c2pa", "JUMD", "ActiveManifestUrl", "ClaimSignatureUrl"].any fun ind =>
    m.fields.any fun kv =>
      hasSub (strLower kv.1) (strLower ind) || hasSub (strLower (pyStr kv.2)) (strLower ind)

/-- The AI-disclosure part of `check_c2pa_authenticity` (every modelled
value is non-null, so the null filter of the source drops nothing). -/
def aiDisclosure (m : Metadata) : Bool :=
  ["generative ai", "google ai", "algorithmicmedia", "created"].any fun kw =>
    m.fields.any fun kv => hasSub (strLower (pyStr kv.2)) kw

/-- The validation-results part of `check_c2pa_authenticity`; `none`
models the `TypeError` raised when the field holds a number (iterating a
string yields its characters). -/
def validationPassed (m : Metadata) : Option Bool :=
  let critical_validations := ["signingCredential", "timeStamp", "claimSignature"]
  match m.get? "ValidationResultsActiveManifestSuccessCode" with
  | none => some false
  | some (.num _) => none
  | some (.str s) =>
    some (critical_validations.any fun crit =>
      s.data.any fun code => hasSub ⟨[code]⟩ crit)
  | some (.list l) =>
    some (critical_validations.any fun crit => l.any fun code => hasSub code crit)

/-- `check_c2pa_authenticity` from the source.  The validation-results
lookup, computed last, is the only part that can raise. -/
def check_c2pa_authenticity (m : Metadata) : Option C2paChecks :=
  (validationPassed m).map fun validation_passed =>
    ⟨hasC2paManifest m, m.hasKey "ClaimSignatureUrl", m.hasKey "ActiveManifestHash",
      aiDisclosure m, validation_passed⟩

/-- The explicit-credit part of `check_ai_indicators`. -/
def explicitAiCredit (m : Metadata) : Bool :=
  ["Credit", "Creator", "Software", "ProcessingSoftware"].any fun f =>
    match m.get? f with
    | some v =>
      ["ai", "generative", "stable diffusion", "midjourney", "dall-e", "google ai"].any
        fun t => hasSub (strLower (pyStr v)) t
    | none => false

/-- The actions part of `check_ai_indicators`: the raw value is searched
without a string conversion, so a number raises (`none`) and a list is
tested by membership. -/
def generativeActions (m : Metadata) : Option Bool :=
  match m.get? "ActionsDescription" with
  | none => some false
  | some (.num _) => none
  | some (.str s) => some (["generative", "created", "ai"].any fun t => hasSub s t)
  | some (.list l) => some (["generative", "created", "ai"].any fun t => l.contains t)

/-- The source-type part of `check_ai_indicators`. -/
def digitalSourceType (m : Metadata) : Bool :=
  match m.get? "DigitalSourceType" with
  | some v => hasSub (strLower (pyStr v)) "algorithmicmedia"
  | none => false

/-- `check_ai_indicators` from the source.  The actions check is the only
part that can raise. -/
def check_ai_indicators (m : Metadata) : Option AiChecks :=
  (generativeActions m).map fun generative_actions =>
    ⟨explicitAiCredit m, generative_actions, digitalSourceType m,
      m.hasKey "Claim_Generator_InfoName"⟩

/-- One step of the date-extraction loop inside the `try` block of
`check_tampering_indicators`: walk the collected date values in order and
collect a year for every string containing `"202"`; `Except.error`
reproduces an exception inside the `try` (a substring test on a number, a
failed `int` conversion, or `int` applied to a list slice). -/
def extractYears : List Value → Except Unit (List Int)
  | [] => .ok []
  | v :: rest =>
    match v with
    | .num _ => .error ()
    | .str s =>
      if hasSub s "202" then
        match pyInt (strTake s 4) with
        | some y => (extractYears rest).map (fun ys => y :: ys)
        | none => .error ()
      else extractYears rest
    | .list l => if l.contains "202" then .error () else extractYears rest

/-- The `date_anomalies` part of `check_tampering_indicators`: the whole
loop runs inside a `try` whose handler leaves the flag false. -/
def dateAnomalies (m : Metadata) : Bool :=
  let existing_dates := ["DateTimeOriginal", "CreateDate", "ModifyDate"].filterMap m.get?
  if existing_dates.length ≥ 2 then
    match extractYears existing_dates with
    | .error _ => false
    | .ok dates_parsed =>
      if dates_parsed.length ≥ 2 then dates_parsed != List.insertionSort (· ≤ ·) dates_parsed
      else false
  else false

/-- The truthy software values collected by `check_tampering_indicators`. -/
def softwareUsed (m : Metadata) : List Value :=
  ["Software", "ProcessingSoftware", "CreatorTool"].filterMap fun f =>
    match m.get? f with
    | some v => if v.truthy then some v else none
    | none => none

/-- The multiple-editors part of `check_tampering_indicators`: more than
two distinct collected values; `none` models the `TypeError` raised by
`set` on an unhashable (list) element. -/
def multipleEditors (m : Metadata) : Option Bool :=
  if (softwareUsed m).any Value.isList then none
  else some (decide ((softwareUsed m).dedup.length > 2))

/-- The stripping part of `check_tampering_indicators`. -/
def metadataStripping (m : Metadata) : Bool :=
  decide (m.size < 10) && m.hasKey "FileType"

/-- `check_tampering_indicators` from the source.  The multiple-editors
check is the only part that can raise, and the reserved
`inconsistent_software` flag is never set. -/
def check_tampering_indicators (m : Metadata) : Option TamperingChecks :=
  (multipleEditors m).map fun multiple_editors =>
    ⟨false, multiple_editors, metadataStripping m, dateAnomalies m⟩

/-! ## Score aggregation, verdict, recommendations -/

/-- Python `sum(integrity_checks.values())`: the number of true checks. -/
def IntegrityChecks.trueCount (i : IntegrityChecks) : Nat :=
  (cond i.valid_file_type 1 0) + (cond i.reasonable_size 1 0) +
    (cond i.has_metadata 1 0) + (cond i.consistent_dates 1 0)

/-- Python `sum(c2pa_checks.values())`. -/
def C2paChecks.trueCount (c : C2paChecks) : Nat :=
  (cond c.has_c2pa_manifest 1 0) + (cond c.valid_signature 1 0) +
    (cond c.hash_validation 1 0) + (cond c.ai_disclosure 1 0) +
    (cond c.validation_passed 1 0)

/-- Python `any(c2pa_checks.values())`. -/
def C2paChecks.anyTrue (c : C2paChecks) : Bool :=
  c.has_c2pa_manifest || c.valid_signature || c.hash_validation ||
    c.ai_disclosure || c.validation_passed

/-- Python `sum(ai_checks.values())`. -/
def AiChecks.trueCount (a : AiChecks) : Nat :=
  (cond a.explicit_ai_credit 1 0) + (cond a.generative_actions 1 0) +
    (cond a.digital_source_type 1 0) + (cond a.creation_tools 1 0)

/-- Python `sum(tampering_checks.values())`. -/
def TamperingChecks.trueCount (t : TamperingChecks) : Nat :=
  (cond t.inconsistent_software 1 0) + (cond t.multiple_editors 1 0) +
    (cond t.metadata_stripping 1 0) + (cond t.date_anomalies 1 0)

/-- The integrity group score inside `calculate_authenticity_score`. -/
def integrity_score (i : IntegrityChecks) : Rat := (i.trueCount : Rat) / 4

/-- The provenance group score inside `calculate_authenticity_score`:
the true ratio, forced to 0 when every provenance check is false. -/
def c2pa_score (c : C2paChecks) : Rat :=
  if c.anyTrue then (c.trueCount : Rat) / 5 else 0

/-- The AI group score inside `calculate_authenticity_score`. -/
def ai_score (a : AiChecks) : Rat := (a.trueCount : Rat) / 4

/-- The (inverted) tampering group score inside `calculate_authenticity_score`. -/
def tampering_score (t : TamperingChecks) : Rat := 1 - (t.trueCount : Rat) / 4

/-- `calculate_authenticity_score` from the source (Python float
arithmetic modelled as exact rational arithmetic). -/
def calculate_authenticity_score (i : IntegrityChecks) (c : C2paChecks)
    (a : AiChecks) (t : TamperingChecks) : Rat :=
  min 100
    ((integrity_score i * 0.3 + c2pa_score c * 0.4 + ai_score a * 0.2 +
      tampering_score t * 0.1) * 100)

/-- `get_verdict` from the source. -/
def get_verdict (score : Rat) : String :=
  if score ≥ 80 then "HIGH_CONFIDENCE_AUTHENTIC"
  else if score ≥ 60 then "MODERATE_CONFIDENCE"
  else if score ≥ 40 then "LOW_CONFIDENCE"
  else "POTENTIALLY_MANIPULATED"

/-- The four per-group results, as bundled into the `checks` dictionary in
`analyze_image`. -/
structure DetailedChecks where
  integrity : IntegrityChecks
  c2pa : C2paChecks
  ai : AiChecks
  tampering : TamperingChecks
deriving DecidableEq, Repr

/-- `get_recommendations` from the source. -/
def get_recommendations (checks : DetailedChecks) (score : Rat) : List String :=
  let recommendations : List String := []
  let recommendations := if score < 60 then
    recommendations ++ ["Exercise caution when using this image"] else recommendations
  let recommendations := if !checks.c2pa.has_c2pa_manifest then
    recommendations ++ ["No digital provenance data found"] else recommendations
  let recommendations := if checks.tampering.multiple_editors then
    recommendations ++ ["Multiple editing tools detected - verify source"] else recommendations
  let recommendations := if checks.ai.explicit_ai_credit && score < 70 then
    recommendations ++ ["AI-generated content - verify intended use"] else recommendations
  recommendations

/-! ## Report building and single-image analysis -/

/-- The report dictionary built by `generate_report` (the wall-clock
timestamp is passed in as a parameter, since the embedding has no clock). -/
structure Report where
  timestamp : String
  image_path : String
  file_size : Value
  file_type : Value
  authenticity_score : Rat
  verdict : String
  detailed_checks : DetailedChecks
  recommendations : List String
deriving DecidableEq, Repr

/-- `generate_report` from the source. -/
def generate_report (timestamp image_path : String) (m : Metadata) (score : Rat)
    (checks : DetailedChecks) : Report :=
  { timestamp := timestamp
    image_path := image_path
    file_size := (m.get? "FileSize").getD (.str "Unknown")
    file_type := (m.get? "FileType").getD (.str "Unknown")
    authenticity_score := score
    verdict := get_verdict score
    detailed_checks := checks
    recommendations := get_recommendations checks score }

/-- Outcome of `analyze_image`: the error dictionary, a report, or an
exception escaping the call (raised by a checker on malformed metadata). -/
inductive AnalyzeResult where
  | errDict (msg : String)
  | report (r : Report)
  | raised
deriving DecidableEq, Repr

/-- `analyze_image` from the source, with the metadata extraction step
abstracted as a function (`none` models the extraction failure path that
returns `None`) and the timestamp passed in. -/
def analyze_image (extract : String → Option Metadata) (timestamp : String)
    (image_path : String) : AnalyzeResult :=
  match extract image_path with
  | none => .errDict "Could not extract metadata"
  | some m =>
    if m.fields.isEmpty then .errDict "Could not extract metadata"
    else
      match check_basic_integrity m, check_c2pa_authenticity m,
          check_ai_indicators m, check_tampering_indicators m with
      | some i, some c, some a, some t =>
        .report (generate_report timestamp image_path m
          (calculate_authenticity_score i c a t) ⟨i, c, a, t⟩)
      | _, _, _, _ => .raised

/-! ## Batch analysis (`BatchAuthenticityChecker`) -/

/-- The extension filter of `analyze_directory`. -/
def image_extensions : List String := [".jpg", ".jpeg", ".png", ".tiff", ".tif", ".webp"]

/-- Python `any(filename.lower().endswith(ext) for ext in image_extensions)`. -/
def isImageFile (filename : String) : Bool :=
  image_extensions.any fun ext => strEndsWith (strLower filename) ext

/-- `os.path.join(directory_path, filename)` (POSIX flavour). -/
def pathJoin (dir filename : String) : String := dir ++ "/" ++ filename

/-- One entry of the list built by `analyze_directory`: either a report
dictionary or a dictionary with an `error` key. -/
inductive BatchResult where
  | report (r : Report)
  | error (msg : String)
deriving DecidableEq, Repr

/-- The entry appended for one filename inside the loop of
`analyze_directory` (the `str(e)` suffix of the caught-exception message
is elided, the embedding carrying no exception text). -/
def batchEntry (analyze : String → AnalyzeResult) (directory_path filename : String) :
    BatchResult :=
  match analyze (pathJoin directory_path filename) with
  | .report r => .report r
  | .errDict msg => .error msg
  | .raised => .error ("Failed to analyze " ++ filename)

/-- `BatchAuthenticityChecker.analyze_directory` from the source, with the
directory listing passed as a list of filenames and the per-image analysis
abstracted as a function. -/
def analyze_directory (analyze : String → AnalyzeResult) (directory_path : String)
    (filenames : List String) : List BatchResult :=
  filenames.foldl
    (fun results filename =>
      if isImageFile filename then
        results ++ [batchEntry analyze directory_path filename]
      else results)
    []

/-- The summary statistics assembled by `generate_summary_report` (the
string rendering of the summary lines is not modelled). -/
@[ext]
structure BatchSummary where
  total_images : Nat
  average_score : Rat
  dist_high : Nat
  dist_medium : Nat
  dist_low : Nat
  dist_suspicious : Nat
  c2pa_images : Nat
  ai_generated_images : Nat
deriving DecidableEq, Repr

/-- Python `any(result['detailed_checks']['ai'].values())`. -/
def AiChecks.anyTrue (a : AiChecks) : Bool :=
  a.explicit_ai_credit || a.generative_actions || a.digital_source_type || a.creation_tools

/-- The loop body of `generate_summary_report`, updating the histogram and
the provenance / AI counters for one valid result. -/
def summaryStep (s : BatchSummary) (r : Report) : BatchSummary :=
  let s :=
    if r.authenticity_score ≥ 80 then { s with dist_high := s.dist_high + 1 }
    else if r.authenticity_score ≥ 60 then { s with dist_medium := s.dist_medium + 1 }
    else if r.authenticity_score ≥ 40 then { s with dist_low := s.dist_low + 1 }
    else { s with dist_suspicious := s.dist_suspicious + 1 }
  let s := if r.detailed_checks.c2pa.has_c2pa_manifest then
    { s with c2pa_images := s.c2pa_images + 1 } else s
  let s := if r.detailed_checks.ai.anyTrue then
    { s with ai_generated_images := s.ai_generated_images + 1 } else s
  s

/-- The filter `[r for r in results if 'authenticity_score' in r]`:
exactly the report entries have that key. -/
def validResults (results : List BatchResult) : List Report :=
  results.filterMap fun r =>
    match r with
    | .report rep => some rep
    | .error _ => none

/-- `BatchAuthenticityChecker.generate_summary_report` from the source,
restricted to the summary values it computes; `none` corresponds to the
early `No valid images analyzed` return. -/
def generate_summary_report (results : List BatchResult) : Option BatchSummary :=
  let valid_results := validResults results
  if valid_results.isEmpty then none
  else
    let init : BatchSummary :=
      { total_images := valid_results.length, average_score := 0, dist_high := 0,
        dist_medium := 0, dist_low := 0, dist_suspicious := 0, c2pa_images := 0,
        ai_generated_images := 0 }
    let s := valid_results.foldl summaryStep init
    let scores := valid_results.map (·.authenticity_score)
    some { s with average_score := scores.sum / (scores.length : Rat) }

/-! ## Basic lemmas about the group scores -/

theorem IntegrityChecks.iCount_le_four (i : IntegrityChecks) : i.trueCount ≤ 4 := by
  rcases i with ⟨a, b, c, d⟩
  cases a <;> cases b <;> cases c <;> cases d <;> decide

theorem C2paChecks.cCount_le_five (c : C2paChecks) : c.trueCount ≤ 5 := by
  rcases c with ⟨a, b, d, e, f⟩
  cases a <;> cases b <;> cases d <;> cases e <;> cases f <;> decide

theorem AiChecks.aCount_le_four (a : AiChecks) : a.trueCount ≤ 4 := by
  rcases a with ⟨x, y, z, w⟩
  cases x <;> cases y <;> cases z <;> cases w <;> decide

theorem TamperingChecks.tCount_le_four (t : TamperingChecks) : t.trueCount ≤ 4 := by
  rcases t with ⟨x, y, z, w⟩
  cases x <;> cases y <;> cases z <;> cases w <;> decide

/-- The all-false guard on the provenance score is extensionally the
plain ratio, since an all-false group has true count 0. -/
theorem c2pa_score_eq (c : C2paChecks) : c2pa_score c = (c.trueCount : Rat) / 5 := by
  unfold c2pa_score
  cases h : c.anyTrue
  · have h0 : c.trueCount = 0 := by
      rcases c with ⟨a, b, d, e, f⟩
      cases a <;> cases b <;> cases d <;> cases e <;> cases f <;>
        simp_all [C2paChecks.anyTrue, C2paChecks.trueCount]
    simp [h0]
  · rfl

theorem integrity_score_nonneg (i : IntegrityChecks) : 0 ≤ integrity_score i := by
  unfold integrity_score; positivity

theorem integrity_score_le_one (i : IntegrityChecks) : integrity_score i ≤ 1 := by
  unfold integrity_score
  rw [div_le_one (by norm_num)]
  exact_mod_cast i.iCount_le_four

theorem c2pa_score_nonneg (c : C2paChecks) : 0 ≤ c2pa_score c := by
  rw [c2pa_score_eq]; positivity

theorem c2pa_score_le_one (c : C2paChecks) : c2pa_score c ≤ 1 := by
  rw [c2pa_score_eq, div_le_one (by norm_num)]
  exact_mod_cast c.cCount_le_five

theorem ai_score_nonneg (a : AiChecks) : 0 ≤ ai_score a := by
  unfold ai_score; positivity

theorem ai_score_le_one (a : AiChecks) : ai_score a ≤ 1 := by
  unfold ai_score
  rw [div_le_one (by norm_num)]
  exact_mod_cast a.aCount_le_four

theorem tampering_score_nonneg (t : TamperingChecks) : 0 ≤ tampering_score t := by
  unfold tampering_score
  have h : (t.trueCount : Rat) ≤ 4 := by exact_mod_cast t.tCount_le_four
  have : (t.trueCount : Rat) / 4 ≤ 1 := by linarith
  linarith

theorem tampering_score_le_one (t : TamperingChecks) : tampering_score t ≤ 1 := by
  unfold tampering_score
  have h : (0 : Rat) ≤ (t.trueCount : Rat) / 4 := by positivity
  linarith

/-- The four verdict strings. -/
def verdicts : List String :=
  ["HIGH_CONFIDENCE_AUTHENTIC", "MODERATE_CONFIDENCE", "LOW_CONFIDENCE",
   "POTENTIALLY_MANIPULATED"]

theorem get_verdict_iff (s : Rat) :
    get_verdict s ∈ verdicts ∧
    (get_verdict s = "HIGH_CONFIDENCE_AUTHENTIC" ↔ 80 ≤ s) ∧
    (get_verdict s = "MODERATE_CONFIDENCE" ↔ 60 ≤ s ∧ s < 80) ∧
    (get_verdict s = "LOW_CONFIDENCE" ↔ 40 ≤ s ∧ s < 60) ∧
    (get_verdict s = "POTENTIALLY_MANIPULATED" ↔ s < 40) := by
  unfold get_verdict verdicts
  split_ifs with h1 h2 h3 <;>
    refine ⟨by simp, ?_, ?_, ?_, ?_⟩ <;>
    constructor <;>
    intro hx <;>
    first
      | (exact absurd hx (by decide))
      | (constructor <;> linarith)
      | linarith

/-- C1: the authenticity score always lies in the interval from 0 to
100, and `get_verdict` sends it to exactly one of the four categories,
each band inclusive on its lower bound: HIGH_CONFIDENCE_AUTHENTIC for
scores at least 80, MODERATE_CONFIDENCE for scores in the band from 60
below 80, LOW_CONFIDENCE for the band from 40 below 60, and
POTENTIALLY_MANIPULATED below 40. -/
theorem score_in_range_and_verdict_bands (i : IntegrityChecks) (c : C2paChecks)
    (a : AiChecks) (t : TamperingChecks) :
    0 ≤ calculate_authenticity_score i c a t ∧
    calculate_authenticity_score i c a t ≤ 100 ∧
    (get_verdict (calculate_authenticity_score i c a t) ∈ verdicts ∧
     (get_verdict (calculate_authenticity_score i c a t) = "HIGH_CONFIDENCE_AUTHENTIC" ↔
        80 ≤ calculate_authenticity_score i c a t) ∧
     (get_verdict (calculate_authenticity_score i c a t) = "MODERATE_CONFIDENCE" ↔
        60 ≤ calculate_authenticity_score i c a t ∧ calculate_authenticity_score i c a t < 80) ∧
     (get_verdict (calculate_authenticity_score i c a t) = "LOW_CONFIDENCE" ↔
        40 ≤ calculate_authenticity_score i c a t ∧ calculate_authenticity_score i c a t < 60) ∧
     (get_verdict (calculate_authenticity_score i c a t) = "POTENTIALLY_MANIPULATED" ↔
        calculate_authenticity_score i c a t < 40)) := by
  refine ⟨?_, ?_, get_verdict_iff _⟩
  · unfold calculate_authenticity_score
    have h1 := integrity_score_nonneg i
    have h2 := c2pa_score_nonneg c
    have h3 := ai_score_nonneg a
    have h4 := tampering_score_nonneg t
    apply le_min (by norm_num)
    nlinarith
  · exact min_le_left _ _

/-! ## Monotonicity of the score in single check flips -/

/-- The check names of the integrity group. -/
inductive IntegrityKey where
  | valid_file_type | reasonable_size | has_metadata | consistent_dates
deriving DecidableEq

/-- The check names of the provenance group. -/
inductive C2paKey where
  | has_c2pa_manifest | valid_signature | hash_validation | ai_disclosure | validation_passed
deriving DecidableEq

/-- The check names of the AI group. -/
inductive AiKey where
  | explicit_ai_credit | generative_actions | digital_source_type | creation_tools
deriving DecidableEq

/-- The check names of the tampering group. -/
inductive TamperingKey where
  | inconsistent_software | multiple_editors | metadata_stripping | date_anomalies
deriving DecidableEq

/-- Read one check of the integrity group. -/
def IntegrityChecks.getKey (k : IntegrityKey) (i : IntegrityChecks) : Bool :=
  match k with
  | .valid_file_type => i.valid_file_type
  | .reasonable_size => i.reasonable_size
  | .has_metadata => i.has_metadata
  | .consistent_dates => i.consistent_dates

/-- Overwrite one check of the integrity group. -/
def IntegrityChecks.setKey (k : IntegrityKey) (b : Bool) (i : IntegrityChecks) :
    IntegrityChecks :=
  match k with
  | .valid_file_type => { i with valid_file_type := b }
  | .reasonable_size => { i with reasonable_size := b }
  | .has_metadata => { i with has_metadata := b }
  | .consistent_dates => { i with consistent_dates := b }

/-- Read one check of the provenance group. -/
def C2paChecks.getKey (k : C2paKey) (c : C2paChecks) : Bool :=
  match k with
  | .has_c2pa_manifest => c.has_c2pa_manifest
  | .valid_signature => c.valid_signature
  | .hash_validation => c.hash_validation
  | .ai_disclosure => c.ai_disclosure
  | .validation_passed => c.validation_passed

/-- Overwrite one check of the provenance group. -/
def C2paChecks.setKey (k : C2paKey) (b : Bool) (c : C2paChecks) : C2paChecks :=
  match k with
  | .has_c2pa_manifest => { c with has_c2pa_manifest := b }
  | .valid_signature => { c with valid_signature := b }
  | .hash_validation => { c with hash_validation := b }
  | .ai_disclosure => { c with ai_disclosure := b }
  | .validation_passed => { c with validation_passed := b }

/-- Read one check of the AI group. -/
def AiChecks.getKey (k : AiKey) (a : AiChecks) : Bool :=
  match k with
  | .explicit_ai_credit => a.explicit_ai_credit
  | .generative_actions => a.generative_actions
  | .digital_source_type => a.digital_source_type
  | .creation_tools => a.creation_tools

/-- Overwrite one check of the AI group. -/
def AiChecks.setKey (k : AiKey) (b : Bool) (a : AiChecks) : AiChecks :=
  match k with
  | .explicit_ai_credit => { a with explicit_ai_credit := b }
  | .generative_actions => { a with generative_actions := b }
  | .digital_source_type => { a with digital_source_type := b }
  | .creation_tools => { a with creation_tools := b }

/-- Read one check of the tampering group. -/
def TamperingChecks.getKey (k : TamperingKey) (t : TamperingChecks) : Bool :=
  match k with
  | .inconsistent_software => t.inconsistent_software
  | .multiple_editors => t.multiple_editors
  | .metadata_stripping => t.metadata_stripping
  | .date_anomalies => t.date_anomalies

/-- Overwrite one check of the tampering group. -/
def TamperingChecks.setKey (k : TamperingKey) (b : Bool) (t : TamperingChecks) :
    TamperingChecks :=
  match k with
  | .inconsistent_software => { t with inconsistent_software := b }
  | .multiple_editors => { t with multiple_editors := b }
  | .metadata_stripping => { t with metadata_stripping := b }
  | .date_anomalies => { t with date_anomalies := b }

theorem IntegrityChecks.iCount_setKey_true (k : IntegrityKey) (i : IntegrityChecks)
    (h : IntegrityChecks.getKey k i = false) :
    (IntegrityChecks.setKey k true i).trueCount = i.trueCount + 1 := by
  cases k <;> rcases i with ⟨a, b, c, d⟩ <;> cases a <;> cases b <;> cases c <;> cases d <;>
    revert h <;> decide

theorem C2paChecks.cCount_setKey_true (k : C2paKey) (c : C2paChecks)
    (h : C2paChecks.getKey k c = false) :
    (C2paChecks.setKey k true c).trueCount = c.trueCount + 1 := by
  cases k <;> rcases c with ⟨a, b, d, e, f⟩ <;> cases a <;> cases b <;> cases d <;>
    cases e <;> cases f <;> revert h <;> decide

theorem AiChecks.aCount_setKey_true (k : AiKey) (a : AiChecks)
    (h : AiChecks.getKey k a = false) :
    (AiChecks.setKey k true a).trueCount = a.trueCount + 1 := by
  cases k <;> rcases a with ⟨x, y, z, w⟩ <;> cases x <;> cases y <;> cases z <;> cases w <;>
    revert h <;> decide

theorem TamperingChecks.tCount_setKey_true (k : TamperingKey) (t : TamperingChecks)
    (h : TamperingChecks.getKey k t = false) :
    (TamperingChecks.setKey k true t).trueCount = t.trueCount + 1 := by
  cases k <;> rcases t with ⟨x, y, z, w⟩ <;> cases x <;> cases y <;> cases z <;> cases w <;>
    revert h <;> decide

/-- The score is monotone in the true counts of the first three groups
and antitone in the tampering count. -/
theorem calculate_mono {i i' : IntegrityChecks} {c c' : C2paChecks} {a a' : AiChecks}
    {t t' : TamperingChecks}
    (hi : i.trueCount ≤ i'.trueCount) (hc : c.trueCount ≤ c'.trueCount)
    (ha : a.trueCount ≤ a'.trueCount) (ht : t'.trueCount ≤ t.trueCount) :
    calculate_authenticity_score i c a t ≤ calculate_authenticity_score i' c' a' t' := by
  unfold calculate_authenticity_score
  apply min_le_min le_rfl
  have hi' : (i.trueCount : Rat) ≤ i'.trueCount := by exact_mod_cast hi
  have hc' : (c.trueCount : Rat) ≤ c'.trueCount := by exact_mod_cast hc
  have ha' : (a.trueCount : Rat) ≤ a'.trueCount := by exact_mod_cast ha
  have ht' : (t'.trueCount : Rat) ≤ t.trueCount := by exact_mod_cast ht
  simp only [integrity_score, ai_score, tampering_score, c2pa_score_eq]
  linarith

/-- C3: holding the other three groups fixed, flipping a single
integrity, provenance, or AI check from false to true never decreases
the authenticity score, and flipping a single tampering check from false
to true never increases it. -/
theorem score_single_flip_monotone :
    (∀ (k : IntegrityKey) (i : IntegrityChecks) (c : C2paChecks) (a : AiChecks)
       (t : TamperingChecks), IntegrityChecks.getKey k i = false →
       calculate_authenticity_score i c a t ≤
         calculate_authenticity_score (IntegrityChecks.setKey k true i) c a t) ∧
    (∀ (k : C2paKey) (i : IntegrityChecks) (c : C2paChecks) (a : AiChecks)
       (t : TamperingChecks), C2paChecks.getKey k c = false →
       calculate_authenticity_score i c a t ≤
         calculate_authenticity_score i (C2paChecks.setKey k true c) a t) ∧
    (∀ (k : AiKey) (i : IntegrityChecks) (c : C2paChecks) (a : AiChecks)
       (t : TamperingChecks), AiChecks.getKey k a = false →
       calculate_authenticity_score i c a t ≤
         calculate_authenticity_score i c (AiChecks.setKey k true a) t) ∧
    (∀ (k : TamperingKey) (i : IntegrityChecks) (c : C2paChecks) (a : AiChecks)
       (t : TamperingChecks), TamperingChecks.getKey k t = false →
       calculate_authenticity_score i c a (TamperingChecks.setKey k true t) ≤
         calculate_authenticity_score i c a t) := by
  refine ⟨fun k i c a t h => ?_, fun k i c a t h => ?_, fun k i c a t h => ?_,
    fun k i c a t h => ?_⟩
  · exact calculate_mono (by rw [IntegrityChecks.iCount_setKey_true k i h]; omega)
      le_rfl le_rfl le_rfl
  · exact calculate_mono le_rfl (by rw [C2paChecks.cCount_setKey_true k c h]; omega)
      le_rfl le_rfl
  · exact calculate_mono le_rfl le_rfl (by rw [AiChecks.aCount_setKey_true k a h]; omega)
      le_rfl
  · exact calculate_mono le_rfl le_rfl le_rfl
      (by rw [TamperingChecks.tCount_setKey_true k t h]; omega)

/-- Witness for C3 at concrete all-false groups: one flip in each group. -/
theorem score_single_flip_monotone_witness :
    (calculate_authenticity_score ⟨false, false, false, false⟩
        ⟨false, false, false, false, false⟩ ⟨false, false, false, false⟩
        ⟨false, false, false, false⟩ ≤
      calculate_authenticity_score
        (IntegrityChecks.setKey .valid_file_type true ⟨false, false, false, false⟩)
        ⟨false, false, false, false, false⟩ ⟨false, false, false, false⟩
        ⟨false, false, false, false⟩) ∧
    (calculate_authenticity_score ⟨false, false, false, false⟩
        ⟨false, false, false, false, false⟩ ⟨false, false, false, false⟩
        ⟨false, false, false, false⟩ ≤
      calculate_authenticity_score ⟨false, false, false, false⟩
        (C2paChecks.setKey .has_c2pa_manifest true ⟨false, false, false, false, false⟩)
        ⟨false, false, false, false⟩ ⟨false, false, false, false⟩) ∧
    (calculate_authenticity_score ⟨false, false, false, false⟩
        ⟨false, false, false, false, false⟩ ⟨false, false, false, false⟩
        ⟨false, false, false, false⟩ ≤
      calculate_authenticity_score ⟨false, false, false, false⟩
        ⟨false, false, false, false, false⟩
        (AiChecks.setKey .explicit_ai_credit true ⟨false, false, false, false⟩)
        ⟨false, false, false, false⟩) ∧
    (calculate_authenticity_score ⟨false, false, false, false⟩
        ⟨false, false, false, false, false⟩ ⟨false, false, false, false⟩
        (TamperingChecks.setKey .date_anomalies true ⟨false, false, false, false⟩) ≤
      calculate_authenticity_score ⟨false, false, false, false⟩
        ⟨false, false, false, false, false⟩ ⟨false, false, false, false⟩
        ⟨false, false, false, false⟩) :=
  ⟨score_single_flip_monotone.1 .valid_file_type _ _ _ _ rfl,
   score_single_flip_monotone.2.1 .has_c2pa_manifest _ _ _ _ rfl,
   score_single_flip_monotone.2.2.1 .explicit_ai_credit _ _ _ _ rfl,
   score_single_flip_monotone.2.2.2 .date_anomalies _ _ _ _ rfl⟩

/-! ## Zero-forcing of an all-false provenance group -/

/-- C5: when every provenance check is false, the provenance group score
is forced to exactly 0 and the final score is exactly the score computed
from the remaining three weighted groups alone. -/
theorem c2pa_all_false_zero_contribution (i : IntegrityChecks) (a : AiChecks)
    (t : TamperingChecks) (c : C2paChecks) (h : c.anyTrue = false) :
    c2pa_score c = 0 ∧
    calculate_authenticity_score i c a t =
      min 100 ((integrity_score i * 0.3 + ai_score a * 0.2 + tampering_score t * 0.1) * 100) := by
  have h0 : c2pa_score c = 0 := by unfold c2pa_score; rw [h]; rfl
  refine ⟨h0, ?_⟩
  unfold calculate_authenticity_score
  rw [h0]
  ring_nf

/-- Witness for C5: the all-false provenance group next to arbitrary
concrete other groups. -/
theorem c2pa_all_false_zero_contribution_witness :
    c2pa_score ⟨false, false, false, false, false⟩ = 0 ∧
    calculate_authenticity_score ⟨true, true, false, false⟩
        ⟨false, false, false, false, false⟩ ⟨false, false, false, false⟩
        ⟨false, true, false, false⟩ =
      min 100 ((integrity_score ⟨true, true, false, false⟩ * 0.3 +
        ai_score ⟨false, false, false, false⟩ * 0.2 +
        tampering_score ⟨false, true, false, false⟩ * 0.1) * 100) :=
  c2pa_all_false_zero_contribution ⟨true, true, false, false⟩ ⟨false, false, false, false⟩
    ⟨false, true, false, false⟩ ⟨false, false, false, false, false⟩ rfl

/-! ## The ClaimSignatureUrl / ActiveManifestHash scenario -/

/-- A key that is present is held by some field pair. -/
theorem hasKey_exists_pair {m : Metadata} {k : String} (h : m.hasKey k = true) :
    ∃ p ∈ m.fields, p.1 = k := by
  unfold Metadata.hasKey Metadata.get? at h
  cases hf : m.fields.find? (fun p => p.1 == k) with
  | none => rw [hf] at h; simp at h
  | some p =>
    refine ⟨p, List.mem_of_find?_eq_some hf, ?_⟩
    have := List.find?_some hf
    simpa using this

/-- A record with a `ClaimSignatureUrl` field always triggers the
manifest-presence indicator, via the key-substring match. -/
theorem hasC2paManifest_of_claimSig {m : Metadata}
    (h : m.hasKey "ClaimSignatureUrl" = true) : hasC2paManifest m = true := by
  obtain ⟨p, hmem, hkey⟩ := hasKey_exists_pair h
  unfold hasC2paManifest
  rw [List.any_eq_true]
  refine ⟨"ClaimSignatureUrl", by decide, ?_⟩
  rw [List.any_eq_true]
  refine ⟨p, hmem, ?_⟩
  rw [hkey]
  have hs : hasSub (strLower "ClaimSignatureUrl") (strLower "ClaimSignatureUrl") = true := by
    decide
  simp [hs]

/-- The scenario record of the spec: `ClaimSignatureUrl` and
`ActiveManifestHash` present (with innocuous values), no other fields. -/
def scenarioRecord : Metadata :=
  ⟨[("ClaimSignatureUrl", .str "https://example.org/sig"),
    ("ActiveManifestHash", .str "abc123")], by decide⟩

/-- Counterexample to C2 as stated: on the scenario record the
provenance checker marks the manifest, signature and hash checks all
true, so the provenance group score is 3/5, not 2/5. -/
theorem c2pa_scenario_score_counterexample :
    check_c2pa_authenticity scenarioRecord =
      some ⟨true, true, true, false, false⟩ ∧
    c2pa_score ⟨true, true, true, false, false⟩ ≠ 2 / 5 := by
  constructor
  · decide
  · norm_num [c2pa_score, C2paChecks.anyTrue, C2paChecks.trueCount]

/-- C2 as amended: any record carrying both fields gets
`has_c2pa_manifest`, `valid_signature` and `hash_validation` all true
(the first via the key-substring match), and on the scenario record the
provenance group score used by the aggregator is 3/5 = 0.6. -/
theorem c2pa_scenario_checks_and_score :
    (∀ (m : Metadata) (r : C2paChecks), check_c2pa_authenticity m = some r →
      m.hasKey "ClaimSignatureUrl" = true → m.hasKey "ActiveManifestHash" = true →
      r.has_c2pa_manifest = true ∧ r.valid_signature = true ∧ r.hash_validation = true) ∧
    check_c2pa_authenticity scenarioRecord = some ⟨true, true, true, false, false⟩ ∧
    c2pa_score ⟨true, true, true, false, false⟩ = 3 / 5 := by
  refine ⟨fun m r hr h1 h2 => ?_, by decide, ?_⟩
  · unfold check_c2pa_authenticity at hr
    rw [Option.map_eq_some'] at hr
    obtain ⟨vp, _, hr⟩ := hr
    subst hr
    exact ⟨hasC2paManifest_of_claimSig h1, h1, h2⟩
  · norm_num [c2pa_score, C2paChecks.anyTrue, C2paChecks.trueCount]

/-- Witness for the amended C2 at the scenario record. -/
theorem c2pa_scenario_checks_and_score_witness :
    (⟨true, true, true, false, false⟩ : C2paChecks).has_c2pa_manifest = true ∧
    (⟨true, true, true, false, false⟩ : C2paChecks).valid_signature = true ∧
    (⟨true, true, true, false, false⟩ : C2paChecks).hash_validation = true :=
  c2pa_scenario_checks_and_score.1 scenarioRecord ⟨true, true, true, false, false⟩
    (by decide) (by decide) (by decide)

/-! ## Recommendation rules -/

/-- Counterexample to C6 as stated: with every check false and score 0,
the first two rules fire, and the produced strings carry no trailing
period, unlike the text quoted in the claim. -/
theorem recommendations_text_counterexample :
    get_recommendations
        ⟨⟨false, false, false, false⟩, ⟨false, false, false, false, false⟩,
         ⟨false, false, false, false⟩, ⟨false, false, false, false⟩⟩ 0 =
      ["Exercise caution when using this image", "No digital provenance data found"] ∧
    get_recommendations
        ⟨⟨false, false, false, false⟩, ⟨false, false, false, false, false⟩,
         ⟨false, false, false, false⟩, ⟨false, false, false, false⟩⟩ 0 ≠
      ["Exercise caution when using this image.", "No digital provenance data found."] := by
  have h : get_recommendations
      ⟨⟨false, false, false, false⟩, ⟨false, false, false, false, false⟩,
       ⟨false, false, false, false⟩, ⟨false, false, false, false⟩⟩ 0 =
      ["Exercise caution when using this image", "No digital provenance data found"] := by
    unfold get_recommendations
    norm_num
  refine ⟨h, ?_⟩
  rw [h]
  decide

/-- C6 as amended: `get_recommendations` evaluates all four rules and
appends the matching strings in the fixed order score-caution,
missing-provenance, multiple-editors, AI-credit, producing a possibly
empty list; each string is exactly the source text, which has no
trailing period. -/
theorem recommendations_rules (checks : DetailedChecks) (score : Rat) :
    get_recommendations checks score =
      (if score < 60 then ["Exercise caution when using this image"] else []) ++
      (if checks.c2pa.has_c2pa_manifest = false then
        ["No digital provenance data found"] else []) ++
      (if checks.tampering.multiple_editors = true then
        ["Multiple editing tools detected - verify source"] else []) ++
      (if checks.ai.explicit_ai_credit = true ∧ score < 70 then
        ["AI-generated content - verify intended use"] else []) := by
  unfold get_recommendations
  split_ifs <;> simp_all

/-! ## The tampering checker: the dead flag and the date-anomaly rule -/

/-- C8: the tampering result always carries the reserved
`inconsistent_software` field (a field of the result record), and its
value is false on every record the checker returns on. -/
theorem inconsistent_software_always_false (m : Metadata) (r : TamperingChecks)
    (hr : check_tampering_indicators m = some r) : r.inconsistent_software = false := by
  unfold check_tampering_indicators at hr
  rw [Option.map_eq_some'] at hr
  obtain ⟨me, _, hr⟩ := hr
  subst hr
  rfl

/-- Witness for C8 at the empty record. -/
theorem inconsistent_software_always_false_witness :
    (⟨false, false, false, false⟩ : TamperingChecks).inconsistent_software = false :=
  inconsistent_software_always_false ⟨[], by decide⟩ ⟨false, false, false, false⟩ (by decide)

/-- The year extraction described by the claim: walk the collected date
values in original field order; a string containing `"202"` contributes
its leading four characters parsed as a year, a string without `"202"`
is skipped, and a value the rule cannot substring-test or year-parse (a
number, or a list on which the year conversion is attempted) is a parse
failure, making the whole extraction fail. -/
def yearsExtracted : List Value → Option (List Int)
  | [] => some []
  | v :: rest =>
    match v with
    | .str s =>
      if hasSub s "202" then
        match pyInt (strTake s 4) with
        | some y => (yearsExtracted rest).map (fun ys => y :: ys)
        | none => none
      else yearsExtracted rest
    | .num _ => none
    | .list l => if l.contains "202" then none else yearsExtracted rest

/-- The date-anomaly rule as the claim words it: collect the present
values of DateTimeOriginal, CreateDate, ModifyDate in that fixed order;
false when fewer than two are present; otherwise extract years from the
date strings, and when at least two years were extracted the check is
true exactly when the year sequence is not sorted ascending; any parse
failure yields false. -/
def dateAnomaliesSpec (m : Metadata) : Bool :=
  let dates := ["DateTimeOriginal", "CreateDate", "ModifyDate"].filterMap m.get?
  if dates.length < 2 then false
  else
    match yearsExtracted dates with
    | none => false
    | some ys => decide (2 ≤ ys.length) && decide (¬ List.Sorted (· ≤ ·) ys)

/-- The loop of the source agrees with the claim-side extraction. -/
theorem extractYears_eq_yearsExtracted (ds : List Value) :
    (match extractYears ds with
     | .ok ys => some ys
     | .error _ => none) = yearsExtracted ds := by
  induction ds with
  | nil => rfl
  | cons v rest ih =>
    cases v with
    | str s =>
      simp only [extractYears, yearsExtracted]
      split_ifs with h
      · cases hp : pyInt (strTake s 4) with
        | none => rfl
        | some y =>
          rw [← ih]
          cases extractYears rest <;> rfl
      · exact ih
    | num n => rfl
    | list l =>
      simp only [extractYears, yearsExtracted]
      split_ifs with h
      · rfl
      · exact ih

/-- A list of integers differs from its sort exactly when it is not
sorted ascending. -/
theorem ne_insertionSort_iff (ys : List Int) :
    (ys ≠ List.insertionSort (· ≤ ·) ys) ↔ ¬ List.Sorted (· ≤ ·) ys := by
  constructor
  · intro h hs
    exact h (List.Sorted.insertionSort_eq hs).symm
  · intro h heq
    exact h (heq ▸ List.sorted_insertionSort (· ≤ ·) ys)

/-- The source `date_anomalies` computation equals the claim wording. -/
theorem dateAnomalies_eq_spec (m : Metadata) : dateAnomalies m = dateAnomaliesSpec m := by
  unfold dateAnomalies dateAnomaliesSpec
  rcases hlen : decide
      ((["DateTimeOriginal", "CreateDate", "ModifyDate"].filterMap m.get?).length ≥ 2) with _ | _
  · have h2 : ¬ (["DateTimeOriginal", "CreateDate", "ModifyDate"].filterMap m.get?).length ≥ 2 :=
      of_decide_eq_false hlen
    rw [if_neg h2, if_pos (by omega)]
  · have h2 : (["DateTimeOriginal", "CreateDate", "ModifyDate"].filterMap m.get?).length ≥ 2 :=
      of_decide_eq_true hlen
    rw [if_pos h2, if_neg (by omega)]
    rw [← extractYears_eq_yearsExtracted]
    cases extractYears (["DateTimeOriginal", "CreateDate", "ModifyDate"].filterMap m.get?) with
    | error e => rfl
    | ok ys =>
      simp only []
      rcases hy : decide (ys.length ≥ 2) with _ | _
      · have hy2 : ¬ ys.length ≥ 2 := of_decide_eq_false hy
        rw [if_neg hy2, Bool.false_and]
      · have hy2 : ys.length ≥ 2 := of_decide_eq_true hy
        rw [if_pos hy2, Bool.true_and]
        by_cases hs : List.Sorted (· ≤ ·) ys
        · have heq : List.insertionSort (· ≤ ·) ys = ys := List.Sorted.insertionSort_eq hs
          simp [hs, heq]
        · have hne : ys ≠ List.insertionSort (· ≤ ·) ys := (ne_insertionSort_iff ys).mpr hs
          simp [hs, hne]

/-- C7: the `date_anomalies` flag computed by
`check_tampering_indicators` follows the claimed rule: present values
among DateTimeOriginal, CreateDate, ModifyDate collected in that fixed
order; false when fewer than two are present; otherwise the leading four
characters of each date string containing `"202"` are parsed as years in
field order, and with at least two years the flag is true exactly when
that sequence is not sorted ascending; a parse failure is swallowed into
false. -/
theorem date_anomalies_follows_rule (m : Metadata) (r : TamperingChecks)
    (hr : check_tampering_indicators m = some r) :
    r.date_anomalies = dateAnomaliesSpec m := by
  unfold check_tampering_indicators at hr
  rw [Option.map_eq_some'] at hr
  obtain ⟨me, _, hr⟩ := hr
  subst hr
  exact dateAnomalies_eq_spec m

/-- A record with two date fields out of ascending order. -/
def dateScenarioRecord : Metadata :=
  ⟨[("DateTimeOriginal", .str "2023:05:01 10:00:00"),
    ("CreateDate", .str "2022:05:01 10:00:00")], by decide⟩

/-- Witness for C7 at a record whose two years are out of order. -/
theorem date_anomalies_follows_rule_witness :
    (⟨false, false, false, true⟩ : TamperingChecks).date_anomalies =
      dateAnomaliesSpec dateScenarioRecord :=
  date_anomalies_follows_rule dateScenarioRecord ⟨false, false, false, true⟩ (by decide)

/-! ## Exception safety of the checkers -/

/-- A `FileSize` value the size check can process without raising. -/
def fileSizeSafe : Option Value → Bool
  | none => true
  | some (.num _) => false
  | some (.str s) =>
    if hasSub s "kB" then (pyInt (splitHead s " kB")).isSome
    else if hasSub s "MB" then (pyFloat (splitHead s " MB")).isSome
    else true
  | some (.list l) => !(l.contains "kB") && !(l.contains "MB")

/-- The fields of a record that every checker can process without
raising: a parseable `FileSize`, no numeric
`ValidationResultsActiveManifestSuccessCode` or `ActionsDescription`
value, and no list among the truthy software values. -/
def wellFormed (m : Metadata) : Bool :=
  fileSizeSafe (m.get? "FileSize") &&
  (match m.get? "ValidationResultsActiveManifestSuccessCode" with
   | some v => !v.isNum
   | none => true) &&
  (match m.get? "ActionsDescription" with
   | some v => !v.isNum
   | none => true) &&
  !((softwareUsed m).any Value.isList)

theorem reasonableSize_isSome {ov : Option Value} (h : fileSizeSafe ov = true) :
    (reasonableSize ov).isSome = true := by
  cases ov with
  | none => rfl
  | some v =>
    cases v with
    | num n => simp [fileSizeSafe] at h
    | str s =>
      simp only [fileSizeSafe] at h
      simp only [reasonableSize]
      split_ifs at h ⊢ with h1 h2
      · rw [Option.isSome_map']; exact h
      · rw [Option.isSome_map']; exact h
      · rfl
    | list l =>
      simp only [fileSizeSafe, Bool.and_eq_true, Bool.not_eq_true'] at h
      simp only [reasonableSize, h.1, h.2]
      rfl

/-- A record exercising the failure path: a numeric `FileSize` makes the
substring test `"kB" in size_str` raise a `TypeError` in Python. -/
def numericSizeRecord : Metadata := ⟨[("FileSize", .num 5)], by decide⟩

/-- Counterexample to C4 as stated: on a record whose `FileSize` is a
number (a value shape the claim admits), `check_basic_integrity` raises
instead of returning a result. -/
theorem checker_raise_counterexample :
    check_basic_integrity numericSizeRecord = none := by decide

/-- C4 as amended: absent fields degrade to false outcomes rather than
exceptions — on the empty record every checker returns its all-false
result — and on any record whose failure-prone fields are well formed
(parseable `FileSize`, non-numeric validation-results and
actions-description values, no list among the truthy software values)
all four checkers return without raising; malformed values in those
positions raise instead of degrading. -/
theorem checkers_no_raise :
    (∀ m : Metadata, wellFormed m = true →
      (check_basic_integrity m).isSome = true ∧
      (check_c2pa_authenticity m).isSome = true ∧
      (check_ai_indicators m).isSome = true ∧
      (check_tampering_indicators m).isSome = true) ∧
    check_basic_integrity ⟨[], List.nodup_nil⟩ = some ⟨false, false, false, false⟩ ∧
    check_c2pa_authenticity ⟨[], List.nodup_nil⟩ = some ⟨false, false, false, false, false⟩ ∧
    check_ai_indicators ⟨[], List.nodup_nil⟩ = some ⟨false, false, false, false⟩ ∧
    check_tampering_indicators ⟨[], List.nodup_nil⟩ = some ⟨false, false, false, false⟩ := by
  refine ⟨fun m h => ?_, by decide, by decide, by decide, by decide⟩
  simp only [wellFormed, Bool.and_eq_true] at h
  obtain ⟨⟨⟨h1, h2⟩, h3⟩, h4⟩ := h
  refine ⟨?_, ?_, ?_, ?_⟩
  · unfold check_basic_integrity
    rw [Option.isSome_map']
    exact reasonableSize_isSome h1
  · unfold check_c2pa_authenticity
    rw [Option.isSome_map']
    unfold validationPassed
    cases hv : m.get? "ValidationResultsActiveManifestSuccessCode" with
    | none => rfl
    | some v =>
      rw [hv] at h2
      cases v with
      | num n => simp [Value.isNum] at h2
      | str s => rfl
      | list l => rfl
  · unfold check_ai_indicators
    rw [Option.isSome_map']
    unfold generativeActions
    cases hv : m.get? "ActionsDescription" with
    | none => rfl
    | some v =>
      rw [hv] at h3
      cases v with
      | num n => simp [Value.isNum] at h3
      | str s => rfl
      | list l => rfl
  · unfold check_tampering_indicators
    rw [Option.isSome_map']
    unfold multipleEditors
    rw [if_neg (by simp_all)]
    rfl

/-- Witness for the amended C4 at the scenario record, which is well
formed. -/
theorem checkers_no_raise_witness :
    (check_basic_integrity scenarioRecord).isSome = true ∧
    (check_c2pa_authenticity scenarioRecord).isSome = true ∧
    (check_ai_indicators scenarioRecord).isSome = true ∧
    (check_tampering_indicators scenarioRecord).isSome = true :=
  checkers_no_raise.1 scenarioRecord (by decide)

/-! ## Single-image analysis boundary -/

/-- C10: an extraction that yields an empty record takes the same error
path as an extraction failure, because the falsiness test on the
metadata dictionary cannot tell an empty mapping from `None`; a report
is produced only when the record has at least one field. -/
theorem analyze_empty_record_errors :
    (∀ (extract : String → Option Metadata) (ts path : String) (m : Metadata),
      extract path = some m → m.fields = [] →
      analyze_image extract ts path = .errDict "Could not extract metadata") ∧
    (∀ (extract : String → Option Metadata) (ts path : String) (r : Report),
      analyze_image extract ts path = .report r →
      ∃ m, extract path = some m ∧ m.fields ≠ []) := by
  constructor
  · intro extract ts path m hex hempty
    simp [analyze_image, hex, hempty]
  · intro extract ts path r hr
    unfold analyze_image at hr
    cases hex : extract path with
    | none => rw [hex] at hr; simp at hr
    | some m =>
      rw [hex] at hr
      refine ⟨m, rfl, fun hempty => ?_⟩
      simp [hempty] at hr

/-- Witness for C10: a constant extraction returning the empty record. -/
theorem analyze_empty_record_errors_witness :
    analyze_image (fun _ => some ⟨[], List.nodup_nil⟩) "2024-01-01T00:00:00" "img.png" =
      .errDict "Could not extract metadata" :=
  analyze_empty_record_errors.1 (fun _ => some ⟨[], List.nodup_nil⟩)
    "2024-01-01T00:00:00" "img.png" ⟨[], List.nodup_nil⟩ rfl rfl

/-! ## Batch behaviour -/

/-- `analyze_directory` is the image-filtered entry map of its file list. -/
theorem analyze_directory_eq (analyze : String → AnalyzeResult) (dir : String)
    (files : List String) :
    analyze_directory analyze dir files =
      files.filterMap fun f =>
        if isImageFile f then some (batchEntry analyze dir f) else none := by
  unfold analyze_directory
  suffices h : ∀ (fs : List String) (acc : List BatchResult),
      fs.foldl (fun results filename =>
        if isImageFile filename then results ++ [batchEntry analyze dir filename]
        else results) acc =
      acc ++ fs.filterMap fun f =>
        if isImageFile f then some (batchEntry analyze dir f) else none by
    simpa using h files []
  intro fs
  induction fs with
  | nil => simp
  | cons f rest ih =>
    intro acc
    rw [List.foldl_cons, List.filterMap_cons]
    by_cases hf : isImageFile f
    · rw [if_pos hf, if_pos hf, ih]
      simp
    · rw [if_neg hf, if_neg hf, ih]

/-- The per-report summary statistics, written as direct counts over the
list of successfully analyzed reports. -/
def summarySpec (reports : List Report) : Option BatchSummary :=
  if reports.isEmpty then none
  else some
    { total_images := reports.length
      average_score := (reports.map (·.authenticity_score)).sum / (reports.length : Rat)
      dist_high := reports.countP fun r => decide (r.authenticity_score ≥ 80)
      dist_medium := reports.countP fun r =>
        decide (60 ≤ r.authenticity_score ∧ r.authenticity_score < 80)
      dist_low := reports.countP fun r =>
        decide (40 ≤ r.authenticity_score ∧ r.authenticity_score < 60)
      dist_suspicious := reports.countP fun r => decide (r.authenticity_score < 40)
      c2pa_images := reports.countP fun r => r.detailed_checks.c2pa.has_c2pa_manifest
      ai_generated_images := reports.countP fun r => r.detailed_checks.ai.anyTrue }

theorem summaryStep_total (s : BatchSummary) (r : Report) :
    (summaryStep s r).total_images = s.total_images := by
  unfold summaryStep
  split_ifs <;> rfl

theorem summaryStep_average (s : BatchSummary) (r : Report) :
    (summaryStep s r).average_score = s.average_score := by
  unfold summaryStep
  split_ifs <;> rfl

theorem summaryStep_high (s : BatchSummary) (r : Report) :
    (summaryStep s r).dist_high =
      s.dist_high + (if 80 ≤ r.authenticity_score then 1 else 0) := by
  unfold summaryStep
  by_cases h1 : r.authenticity_score ≥ 80
  · rw [if_pos h1, if_pos h1]
    split_ifs <;> rfl
  · rw [if_neg h1, if_neg h1]
    split_ifs <;> rfl

theorem summaryStep_medium (s : BatchSummary) (r : Report) :
    (summaryStep s r).dist_medium =
      s.dist_medium +
        (if 60 ≤ r.authenticity_score ∧ r.authenticity_score < 80 then 1 else 0) := by
  unfold summaryStep
  by_cases h1 : r.authenticity_score ≥ 80
  · have hm : (if 60 ≤ r.authenticity_score ∧ r.authenticity_score < 80 then (1 : Nat)
        else 0) = 0 := if_neg (fun hc => absurd h1 (not_le.mpr hc.2))
    rw [hm, if_pos h1]
    split_ifs <;> rfl
  · by_cases h2 : r.authenticity_score ≥ 60
    · have hm : (if 60 ≤ r.authenticity_score ∧ r.authenticity_score < 80 then (1 : Nat)
          else 0) = 1 := if_pos ⟨h2, not_le.mp h1⟩
      rw [hm, if_neg h1, if_pos h2]
      split_ifs <;> rfl
    · have hm : (if 60 ≤ r.authenticity_score ∧ r.authenticity_score < 80 then (1 : Nat)
          else 0) = 0 := if_neg (fun hc => absurd hc.1 h2)
      rw [hm, if_neg h1, if_neg h2]
      split_ifs <;> rfl

theorem summaryStep_low (s : BatchSummary) (r : Report) :
    (summaryStep s r).dist_low =
      s.dist_low +
        (if 40 ≤ r.authenticity_score ∧ r.authenticity_score < 60 then 1 else 0) := by
  unfold summaryStep
  by_cases h1 : r.authenticity_score ≥ 80
  · have hm : (if 40 ≤ r.authenticity_score ∧ r.authenticity_score < 60 then (1 : Nat)
        else 0) = 0 :=
      if_neg (fun hc => absurd h1 (not_le.mpr (lt_of_lt_of_le hc.2 (by norm_num))))
    rw [hm, if_pos h1]
    split_ifs <;> rfl
  · by_cases h2 : r.authenticity_score ≥ 60
    · have hm : (if 40 ≤ r.authenticity_score ∧ r.authenticity_score < 60 then (1 : Nat)
          else 0) = 0 := if_neg (fun hc => absurd h2 (not_le.mpr hc.2))
      rw [hm, if_neg h1, if_pos h2]
      split_ifs <;> rfl
    · by_cases h3 : r.authenticity_score ≥ 40
      · have hm : (if 40 ≤ r.authenticity_score ∧ r.authenticity_score < 60 then (1 : Nat)
            else 0) = 1 := if_pos ⟨h3, not_le.mp h2⟩
        rw [hm, if_neg h1, if_neg h2, if_pos h3]
        split_ifs <;> rfl
      · have hm : (if 40 ≤ r.authenticity_score ∧ r.authenticity_score < 60 then (1 : Nat)
            else 0) = 0 := if_neg (fun hc => absurd hc.1 h3)
        rw [hm, if_neg h1, if_neg h2, if_neg h3]
        split_ifs <;> rfl

theorem summaryStep_suspicious (s : BatchSummary) (r : Report) :
    (summaryStep s r).dist_suspicious =
      s.dist_suspicious + (if r.authenticity_score < 40 then 1 else 0) := by
  unfold summaryStep
  by_cases h1 : r.authenticity_score ≥ 80
  · have hm : (if r.authenticity_score < 40 then (1 : Nat) else 0) = 0 :=
      if_neg (not_lt.mpr (le_trans (by norm_num) h1))
    rw [hm, if_pos h1]
    split_ifs <;> rfl
  · by_cases h2 : r.authenticity_score ≥ 60
    · have hm : (if r.authenticity_score < 40 then (1 : Nat) else 0) = 0 :=
        if_neg (not_lt.mpr (le_trans (by norm_num) h2))
      rw [hm, if_neg h1, if_pos h2]
      split_ifs <;> rfl
    · by_cases h3 : r.authenticity_score ≥ 40
      · have hm : (if r.authenticity_score < 40 then (1 : Nat) else 0) = 0 :=
          if_neg (not_lt.mpr h3)
        rw [hm, if_neg h1, if_neg h2, if_pos h3]
        split_ifs <;> rfl
      · have hm : (if r.authenticity_score < 40 then (1 : Nat) else 0) = 1 :=
          if_pos (not_le.mp h3)
        rw [hm, if_neg h1, if_neg h2, if_neg h3]
        split_ifs <;> rfl

theorem summaryStep_c2pa (s : BatchSummary) (r : Report) :
    (summaryStep s r).c2pa_images =
      s.c2pa_images + (if r.detailed_checks.c2pa.has_c2pa_manifest then 1 else 0) := by
  unfold summaryStep
  split_ifs <;> rfl

theorem summaryStep_ai (s : BatchSummary) (r : Report) :
    (summaryStep s r).ai_generated_images =
      s.ai_generated_images + (if r.detailed_checks.ai.anyTrue then 1 else 0) := by
  unfold summaryStep
  split_ifs <;> rfl

theorem foldl_summaryStep_total (rs : List Report) (init : BatchSummary) :
    (rs.foldl summaryStep init).total_images = init.total_images := by
  induction rs generalizing init with
  | nil => rfl
  | cons r rest ih => rw [List.foldl_cons, ih, summaryStep_total]

theorem foldl_summaryStep_average (rs : List Report) (init : BatchSummary) :
    (rs.foldl summaryStep init).average_score = init.average_score := by
  induction rs generalizing init with
  | nil => rfl
  | cons r rest ih => rw [List.foldl_cons, ih, summaryStep_average]

theorem foldl_summaryStep_high (rs : List Report) (init : BatchSummary) :
    (rs.foldl summaryStep init).dist_high =
      init.dist_high + (rs.countP fun r => decide (r.authenticity_score ≥ 80)) := by
  induction rs generalizing init with
  | nil => simp
  | cons r rest ih =>
    rw [List.foldl_cons, ih, summaryStep_high, List.countP_cons]
    simp only [decide_eq_true_eq, ge_iff_le]
    split_ifs <;> omega

theorem foldl_summaryStep_medium (rs : List Report) (init : BatchSummary) :
    (rs.foldl summaryStep init).dist_medium =
      init.dist_medium + (rs.countP fun r =>
        decide (60 ≤ r.authenticity_score ∧ r.authenticity_score < 80)) := by
  induction rs generalizing init with
  | nil => simp
  | cons r rest ih =>
    rw [List.foldl_cons, ih, summaryStep_medium, List.countP_cons]
    simp only [decide_eq_true_eq]
    split_ifs <;> omega

theorem foldl_summaryStep_low (rs : List Report) (init : BatchSummary) :
    (rs.foldl summaryStep init).dist_low =
      init.dist_low + (rs.countP fun r =>
        decide (40 ≤ r.authenticity_score ∧ r.authenticity_score < 60)) := by
  induction rs generalizing init with
  | nil => simp
  | cons r rest ih =>
    rw [List.foldl_cons, ih, summaryStep_low, List.countP_cons]
    simp only [decide_eq_true_eq]
    split_ifs <;> omega

theorem foldl_summaryStep_suspicious (rs : List Report) (init : BatchSummary) :
    (rs.foldl summaryStep init).dist_suspicious =
      init.dist_suspicious + (rs.countP fun r => decide (r.authenticity_score < 40)) := by
  induction rs generalizing init with
  | nil => simp
  | cons r rest ih =>
    rw [List.foldl_cons, ih, summaryStep_suspicious, List.countP_cons]
    simp only [decide_eq_true_eq]
    split_ifs <;> omega

theorem foldl_summaryStep_c2pa (rs : List Report) (init : BatchSummary) :
    (rs.foldl summaryStep init).c2pa_images =
      init.c2pa_images + (rs.countP fun r => r.detailed_checks.c2pa.has_c2pa_manifest) := by
  induction rs generalizing init with
  | nil => simp
  | cons r rest ih =>
    rw [List.foldl_cons, ih, summaryStep_c2pa, List.countP_cons]
    split_ifs <;> omega

theorem foldl_summaryStep_ai (rs : List Report) (init : BatchSummary) :
    (rs.foldl summaryStep init).ai_generated_images =
      init.ai_generated_images + (rs.countP fun r => r.detailed_checks.ai.anyTrue) := by
  induction rs generalizing init with
  | nil => simp
  | cons r rest ih =>
    rw [List.foldl_cons, ih, summaryStep_ai, List.countP_cons]
    split_ifs <;> omega

/-- Error entries are invisible to `validResults`. -/
theorem validResults_map_report (reports : List Report) :
    validResults (reports.map BatchResult.report) = reports := by
  induction reports with
  | nil => rfl
  | cons r rest ih => simp [validResults] at ih ⊢; exact ih

/-- C9: a per-file analysis failure becomes an error entry for that file
while all files before and after it are still processed, and the batch
summary equals the direct statistics of exactly the successfully
analyzed reports — so it also equals the summary of the error-free
sublist, every errored entry excluded. -/
theorem batch_isolation_and_summary :
    (∀ (analyze : String → AnalyzeResult) (dir f : String) (pre post : List String),
      isImageFile f = true → analyze (pathJoin dir f) = .raised →
      analyze_directory analyze dir (pre ++ f :: post) =
        analyze_directory analyze dir pre ++
          BatchResult.error ("Failed to analyze " ++ f) ::
            analyze_directory analyze dir post) ∧
    (∀ results : List BatchResult,
      generate_summary_report results = summarySpec (validResults results) ∧
      generate_summary_report results =
        generate_summary_report ((validResults results).map BatchResult.report)) := by
  have hmain : ∀ results : List BatchResult,
      generate_summary_report results = summarySpec (validResults results) := by
    intro results
    unfold generate_summary_report summarySpec
    by_cases hv : (validResults results).isEmpty
    · rw [if_pos hv, if_pos hv]
    · rw [if_neg hv, if_neg hv]
      refine congrArg some ?_
      refine BatchSummary.ext ?_ ?_ ?_ ?_ ?_ ?_ ?_ ?_
      · simp [foldl_summaryStep_total]
      · simp [foldl_summaryStep_average]
      · simp [foldl_summaryStep_high]
      · simp [foldl_summaryStep_medium]
      · simp [foldl_summaryStep_low]
      · simp [foldl_summaryStep_suspicious]
      · simp [foldl_summaryStep_c2pa]
      · simp [foldl_summaryStep_ai]
  refine ⟨fun analyze dir f pre post hf hraise => ?_, fun results =>
    ⟨hmain results, ?_⟩⟩
  · rw [analyze_directory_eq, analyze_directory_eq, analyze_directory_eq,
      List.filterMap_append, List.filterMap_cons, if_pos hf]
    unfold batchEntry
    rw [hraise]
  · rw [hmain results, hmain ((validResults results).map BatchResult.report),
      validResults_map_report]

/-- Witness for C9: a two-file batch where analysis of the middle file
raises. -/
theorem batch_isolation_and_summary_witness :
    analyze_directory (fun _ => .raised) "d" (["a.jpg"] ++ "c.png" :: ["b.png"]) =
      analyze_directory (fun _ => .raised) "d" ["a.jpg"] ++
        BatchResult.error ("Failed to analyze " ++ "c.png") ::
          analyze_directory (fun _ => .raised) "d" ["b.png"] :=
  batch_isolation_and_summary.1 (fun _ => .raised) "d" "c.png" ["a.jpg"] ["b.png"]
    (by decide) rfl

end MetadataChecker
